import Mathlib

/-!
Verification development for the expert-router server
(`src/expert_router_mcp.py`).  The Python module is shallowly embedded:

* filesystem and process state (the `experts/` directory listing, the
  template file, the current timestamp) become explicit parameters;
* the regex cascade of `_extract_role` is embedded by a small backtracking
  matcher that reproduces Python `re.search` semantics (leftmost start
  position, greedy/lazy backtracking order) for the exact pattern shapes
  occurring in the source, under `re.MULTILINE | re.IGNORECASE | re.DOTALL`;
* `hashlib.md5(...).hexdigest()` is embedded by a full MD5 implementation
  over the UTF-8 bytes of the input;
* Python dicts become association lists in insertion order (Python dicts
  iterate in insertion order, and assigning to an existing key keeps its
  position);
* every function is total, mirroring the source's "always return text"
  contract.

Character classes (`\s`, `\w`) and case folding are modelled on their ASCII
meaning, which coincides with Python's behaviour on all ASCII input.
-/

-- ============================================================
-- Small Python-compatible string helpers
-- ============================================================

/-- Python `str.isspace` for the characters class `\s` of `re`:
space, tab, newline, carriage return, vertical tab, form feed (ASCII). -/
def pyIsSpace (c : Char) : Bool :=
  c = ' ' || c = '\t' || c = '\n' || c = '\r' || c = '\x0b' || c = '\x0c'

/-- Python `str.strip()` (whitespace stripped from both ends). -/
def pyStrip (s : String) : String :=
  ⟨((s.data.dropWhile pyIsSpace).reverse.dropWhile pyIsSpace).reverse⟩

/-- Python `s[:n]` for a string: the first `n` characters. -/
def pyTake (s : String) (n : Nat) : String :=
  ⟨s.data.take n⟩

/-- Python `str.lower()` (ASCII case folding, as used on file suffixes). -/
def pyLower (s : String) : String :=
  ⟨s.data.map Char.toLower⟩

/-- Python `role.split('\n')`: split at every newline, keeping empty pieces. -/
def splitNl : List Char → List (List Char)
  | [] => [[]]
  | '\n' :: cs => [] :: splitNl cs
  | c :: cs =>
    match splitNl cs with
    | [] => [[c]]
    | l :: ls => (c :: l) :: ls

/-- Python `sep.join(pieces)`. -/
def joinWith (sep : String) : List String → String
  | [] => ""
  | [s] => s
  | s :: rest => s ++ sep ++ joinWith sep rest

/-- Fuel-indexed scan for `replaceAll`; the fuel is an upper bound on the
number of characters still to be scanned, making the recursion structural. -/
def replaceAllFuel : Nat → List Char → List Char → List Char → List Char
  | 0, s, _, _ => s
  | _ + 1, [], _, _ => []
  | fuel + 1, c :: cs, pat, rep =>
    if pat ≠ [] && pat.isPrefixOf (c :: cs) then
      rep ++ replaceAllFuel fuel ((c :: cs).drop pat.length) pat rep
    else
      c :: replaceAllFuel fuel cs pat rep

/-- Python `str.replace`: leftmost, non-overlapping occurrences.  (The
source only calls it with non-empty patterns; an empty pattern is mapped to
the identity here.) -/
def strReplace (s pat rep : String) : String :=
  ⟨replaceAllFuel s.data.length s.data pat.data rep.data⟩

/-- Decidable substring test: `needle` occurs contiguously in `hay`. -/
def strContains (hay needle : String) : Bool :=
  (List.range (hay.data.length + 1)).any
    (fun i => needle.data.isPrefixOf (hay.data.drop i))

-- ============================================================
-- The regex engine for `_extract_role`'s pattern cascade
-- ============================================================

/-- Lookahead atoms occurring in the source's patterns:
`\n\w`, `\n#`, `\n\n` and `\Z`. -/
inductive LookA where
  | nlWord
  | nlHash
  | nlNl
  | strEnd
deriving Repr, DecidableEq

/-- Items of a pattern outside the (single) capture group. -/
inductive Item where
  | lit (s : String)
  | wsStar
  | bol
  | eolOrEnd
  | notCharStar (c : Char)
  | look (alts : List LookA)
deriving Repr

/-- The shape of the capture group: `(.+?)` lazy with DOTALL, `(.+)` greedy
with DOTALL, or a greedy negated-class `([^c]+)`. -/
inductive GrpShape where
  | lazyDotPlus
  | greedyDotPlus
  | notCharPlus (c : Char)
deriving Repr

/-- A pattern of the cascade: items before the group, the group, items
after the group.  All 16 source patterns have this shape. -/
structure Pat where
  pre : List Item
  grp : GrpShape
  post : List Item

/-- Case-insensitive character comparison (`re.IGNORECASE`, ASCII). -/
def ciEq (a b : Char) : Bool :=
  a.toLower = b.toLower

/-- Does the (lower-case) literal match a prefix of the input,
case-insensitively? -/
def matchLitCi : List Char → List Char → Bool
  | [], _ => true
  | _ :: _, [] => false
  | p :: ps, c :: cs => ciEq p c && matchLitCi ps cs

/-- `\w` of `re` (ASCII): letters, digits, underscore. -/
def isWordChar (c : Char) : Bool :=
  c.isAlphanum || c = '_'

/-- A matcher state: the remaining input and the character just before it
(`none` at the very start of the string); the latter decides `^` under
`re.MULTILINE`. -/
abbrev MState := List Char × Option Char

/-- Advance a state by `k` characters. -/
def advance (rest : List Char) (prev : Option Char) (k : Nat) : MState :=
  (rest.drop k,
    match (rest.take k).getLast? with
    | none => prev
    | some c => some c)

/-- Zero-width test of one lookahead atom at a state. -/
def lookMatches (rest : List Char) : LookA → Bool
  | .nlWord =>
    match rest with
    | '\n' :: c :: _ => isWordChar c
    | _ => false
  | .nlHash =>
    match rest with
    | '\n' :: '#' :: _ => true
    | _ => false
  | .nlNl =>
    match rest with
    | '\n' :: '\n' :: _ => true
    | _ => false
  | .strEnd => rest.isEmpty

/-- All ways one item can consume input from one state, in the order the
backtracking engine tries them (`\s*` and `[^c]*` greedy: longest first). -/
def expandItem (item : Item) (st : MState) : List MState :=
  match item, st with
  | .lit s, (rest, prev) =>
    if matchLitCi s.data rest then [advance rest prev s.data.length] else []
  | .wsStar, (rest, prev) =>
    (List.range ((rest.takeWhile pyIsSpace).length + 1)).reverse.map (advance rest prev)
  | .bol, (rest, prev) =>
    if prev = none || prev = some '\n' then [(rest, prev)] else []
  | .eolOrEnd, (rest, prev) =>
    if rest.isEmpty || rest.head? = some '\n' then [(rest, prev)] else []
  | .notCharStar c, (rest, prev) =>
    (List.range ((rest.takeWhile (fun d => d ≠ c)).length + 1)).reverse.map (advance rest prev)
  | .look alts, (rest, prev) =>
    if alts.any (lookMatches rest) then [(rest, prev)] else []

/-- All ways a sequence of items can match from the given states, listed in
depth-first backtracking order. -/
def matchSeqAll : List Item → List MState → List MState
  | [], sts => sts
  | item :: items, sts => matchSeqAll items (sts.flatMap (expandItem item))

/-- All splits the capture group can take at a state, in trial order
(lazy: shortest first; greedy: longest first), paired with the state after
the group. -/
def grpSplits (g : GrpShape) (rest : List Char) (prev : Option Char) :
    List (List Char × MState) :=
  match g with
  | .lazyDotPlus =>
    (List.range rest.length).map
      (fun i => (rest.take (i + 1), advance rest prev (i + 1)))
  | .greedyDotPlus =>
    (List.range rest.length).reverse.map
      (fun i => (rest.take (i + 1), advance rest prev (i + 1)))
  | .notCharPlus c =>
    (List.range (rest.takeWhile (fun d => d ≠ c)).length).reverse.map
      (fun i => (rest.take (i + 1), advance rest prev (i + 1)))

/-- Try to match the whole pattern with its match starting exactly at the
given state; on success return the first capture the engine finds. -/
def matchPatHere (p : Pat) (rest : List Char) (prev : Option Char) :
    Option (List Char) :=
  (matchSeqAll p.pre [(rest, prev)]).findSome? fun st =>
    (grpSplits p.grp st.1 st.2).findSome? fun gs =>
      if (matchSeqAll p.post [gs.2]).isEmpty then none else some gs.1

/-- Scan of `re.search`: try each start position left to right. -/
def searchGo (p : Pat) : List Char → Option Char → Option String
  | rest, prev =>
    match matchPatHere p rest prev with
    | some g => some ⟨g⟩
    | none =>
      match rest with
      | [] => none
      | c :: rs => searchGo p rs (some c)

/-- `re.search(pattern, content, re.MULTILINE | re.IGNORECASE | re.DOTALL)`,
returning `match.group(1)`. -/
def searchPat (p : Pat) (content : String) : Option String :=
  searchGo p content.data none

-- ============================================================
-- The 16 patterns of `_extract_role`, in source order
-- ============================================================

/-- Source pattern `<role>\s*(.+?)\s*</role>`. -/
def roleTagPat : Pat :=
  ⟨[.lit "<role>", .wsStar], .lazyDotPlus, [.wsStar, .lit "</role>"]⟩

/-- Source pattern `<system_prompt>\s*(.+?)\s*</system_prompt>`. -/
def sysTagPat : Pat :=
  ⟨[.lit "<system_prompt>", .wsStar], .lazyDotPlus, [.wsStar, .lit "</system_prompt>"]⟩

/-- Source pattern `"system_prompt"\s*:\s*"([^"]+)"`. -/
def sysJsonPat : Pat :=
  ⟨[.lit "\"system_prompt\"", .wsStar, .lit ":", .wsStar, .lit "\""],
    .notCharPlus '"', [.lit "\""]⟩

/-- Source pattern `"description"\s*:\s*"([^"]+)"`. -/
def descJsonPat : Pat :=
  ⟨[.lit "\"description\"", .wsStar, .lit ":", .wsStar, .lit "\""],
    .notCharPlus '"', [.lit "\""]⟩

/-- Source pattern `'description'\s*:\s*'([^']+)'`. -/
def descJsonSinglePat : Pat :=
  ⟨[.lit "'description'", .wsStar, .lit ":", .wsStar, .lit "'"],
    .notCharPlus '\'', [.lit "'"]⟩

/-- Source pattern `^description\s*:\s*(.+?)(?=\n\w|\n#|\Z)`. -/
def descYamlPat : Pat :=
  ⟨[.bol, .lit "description", .wsStar, .lit ":", .wsStar],
    .lazyDotPlus, [.look [.nlWord, .nlHash, .strEnd]]⟩

/-- Source pattern `<description[^>]*>\s*(.+?)\s*</description>`. -/
def descXmlPat : Pat :=
  ⟨[.lit "<description", .notCharStar '>', .lit ">", .wsStar],
    .lazyDotPlus, [.wsStar, .lit "</description>"]⟩

/-- Source pattern `^#\s*Role\s*\n(.+?)(?=\n#|\n\n|\Z)`. -/
def mdRole1Pat : Pat :=
  ⟨[.bol, .lit "#", .wsStar, .lit "role", .wsStar, .lit "\n"],
    .lazyDotPlus, [.look [.nlHash, .nlNl, .strEnd]]⟩

/-- Source pattern `^##\s*Role\s*\n(.+?)(?=\n#|\n\n|\Z)`. -/
def mdRole2Pat : Pat :=
  ⟨[.bol, .lit "##", .wsStar, .lit "role", .wsStar, .lit "\n"],
    .lazyDotPlus, [.look [.nlHash, .nlNl, .strEnd]]⟩

/-- Source pattern `^#\s*Description\s*\n(.+?)(?=\n#|\n\n|\Z)`. -/
def mdDescPat : Pat :=
  ⟨[.bol, .lit "#", .wsStar, .lit "description", .wsStar, .lit "\n"],
    .lazyDotPlus, [.look [.nlHash, .nlNl, .strEnd]]⟩

/-- Source pattern `#\s*ROLE\s*:\s*(.+)$`. -/
def hashRolePat : Pat :=
  ⟨[.lit "#", .wsStar, .lit "role", .wsStar, .lit ":", .wsStar],
    .greedyDotPlus, [.eolOrEnd]⟩

/-- Source pattern `//\s*ROLE\s*:\s*(.+)$`. -/
def slashRolePat : Pat :=
  ⟨[.lit "//", .wsStar, .lit "role", .wsStar, .lit ":", .wsStar],
    .greedyDotPlus, [.eolOrEnd]⟩

/-- Source pattern `#\s*DESCRIPTION\s*:\s*(.+)$`. -/
def hashDescPat : Pat :=
  ⟨[.lit "#", .wsStar, .lit "description", .wsStar, .lit ":", .wsStar],
    .greedyDotPlus, [.eolOrEnd]⟩

/-- Source pattern `//\s*DESCRIPTION\s*:\s*(.+)$`. -/
def slashDescPat : Pat :=
  ⟨[.lit "//", .wsStar, .lit "description", .wsStar, .lit ":", .wsStar],
    .greedyDotPlus, [.eolOrEnd]⟩

/-- Source pattern `^Role\s*:\s*(.+)$`. -/
def lineRolePat : Pat :=
  ⟨[.bol, .lit "role", .wsStar, .lit ":", .wsStar],
    .greedyDotPlus, [.eolOrEnd]⟩

/-- Source pattern `^Description\s*:\s*(.+)$`. -/
def lineDescPat : Pat :=
  ⟨[.bol, .lit "description", .wsStar, .lit ":", .wsStar],
    .greedyDotPlus, [.eolOrEnd]⟩

/-- The pattern list of `_extract_role`, in the source's priority order. -/
def rolePatterns : List Pat :=
  [roleTagPat, sysTagPat, sysJsonPat, descJsonPat, descJsonSinglePat,
   descYamlPat, descXmlPat, mdRole1Pat, mdRole2Pat, mdDescPat,
   hashRolePat, slashRolePat, hashDescPat, slashDescPat,
   lineRolePat, lineDescPat]

-- ============================================================
-- `_extract_role` itself
-- ============================================================

/-- The multi-line clean-up step of `_extract_role`: strip the capture;
if it spans several lines, keep the first non-blank line, merging in the
second when the first is shorter than 50 characters. -/
def collapseRole (g : String) : String :=
  let role := pyStrip g
  if role.data.contains '\n' then
    let lines := ((splitNl role.data).map (fun l => pyStrip ⟨l⟩)).filter (fun l => l ≠ "")
    match lines with
    | [] => role
    | first :: restLines =>
      match restLines with
      | second :: _ => if first.length < 50 then first ++ " " ++ second else first
      | [] => first
  else role

/-- The truncation step of `_extract_role`: over 250 characters, keep 247
and append an ellipsis. -/
def truncRole (role : String) : String :=
  if role.length > 250 then pyTake role 247 ++ "..." else role

/-- First pattern of the cascade that matches anywhere in the content,
returning its capture (`re.search` per pattern, first pattern wins). -/
def cascadeMatch (content : String) : Option String :=
  rolePatterns.findSome? (fun p => searchPat p content)

/-- The fallback sentinel of `_extract_role`. -/
def fallbackRole : String :=
  "This expert doesn't have a designated role - alert user and attempt to infer from expert id"

/-- `_extract_role(content)` from the source: the pattern cascade with
clean-up and truncation, or the fallback sentinel. -/
def extractRole (content : String) : String :=
  match cascadeMatch content with
  | some g => truncRole (collapseRole g)
  | none => fallbackRole

-- ============================================================
-- MD5 (`hashlib.md5(...).hexdigest()` over UTF-8 bytes)
-- ============================================================

/-- UTF-8 encoding of one character, as byte values. -/
def utf8Bytes (c : Char) : List Nat :=
  let n := c.toNat
  if n < 128 then [n]
  else if n < 2048 then [192 + n / 64, 128 + n % 64]
  else if n < 65536 then [224 + n / 4096, 128 + n / 64 % 64, 128 + n % 64]
  else [240 + n / 262144, 128 + n / 4096 % 64, 128 + n / 64 % 64, 128 + n % 64]

/-- UTF-8 bytes of a string (`content_str.encode()`). -/
def strBytes (s : String) : List Nat :=
  s.data.foldr (fun c acc => utf8Bytes c ++ acc) []

/-- Two to the thirty-second power, the word modulus of MD5. -/
def m32 : Nat := 4294967296

/-- Rotate a 32-bit word left by `n` bits. -/
def rotl32 (x n : Nat) : Nat :=
  ((x * 2 ^ n) % m32) + (x / 2 ^ (32 - n))

/-- The 64 MD5 per-round left-rotation amounts. -/
def md5Shifts : List Nat :=
  [7, 12, 17, 22, 7, 12, 17, 22, 7, 12, 17, 22, 7, 12, 17, 22,
   5, 9, 14, 20, 5, 9, 14, 20, 5, 9, 14, 20, 5, 9, 14, 20,
   4, 11, 16, 23, 4, 11, 16, 23, 4, 11, 16, 23, 4, 11, 16, 23,
   6, 10, 15, 21, 6, 10, 15, 21, 6, 10, 15, 21, 6, 10, 15, 21]

/-- The 64 MD5 sine-derived constants. -/
def md5K : List Nat :=
  [3614090360, 3905402710, 606105819, 3250441966, 4118548399, 1200080426,
   2821735955, 4249261313, 1770035416, 2336552879, 4294925233, 2304563134,
   1804603682, 4254626195, 2792965006, 1236535329, 4129170786, 3225465664,
   643717713, 3921069994, 3593408605, 38016083, 3634488961, 3889429448,
   568446438, 3275163606, 4107603335, 1163531501, 2850285829, 4243563512,
   1735328473, 2368359562, 4294588738, 2272392833, 1839030562, 4259657740,
   2763975236, 1272893353, 4139469664, 3200236656, 681279174, 3936430074,
   3572445317, 76029189, 3654602809, 3873151461, 530742520, 3299628645,
   4096336452, 1126891415, 2878612391, 4237533241, 1700485571, 2399980690,
   4293915773, 2240044497, 1873313359, 4264355552, 2734768916, 1309151649,
   4149444226, 3174756917, 718787259, 3951481745]

/-- Little-endian decode of bytes into 32-bit words. -/
def bytesToWordsLE : List Nat → List Nat
  | b0 :: b1 :: b2 :: b3 :: rest =>
    (b0 + 256 * b1 + 65536 * b2 + 16777216 * b3) :: bytesToWordsLE rest
  | _ => []

/-- One of the 64 MD5 mixing steps on the running `(a, b, c, d)` state. -/
def md5Mix (w : List Nat) (st : Nat × Nat × Nat × Nat) (i : Nat) :
    Nat × Nat × Nat × Nat :=
  match st with
  | (a, b, c, d) =>
    let notW := fun x => 4294967295 - x
    let fg : Nat × Nat :=
      if i < 16 then ((b &&& c) ||| (notW b &&& d), i)
      else if i < 32 then ((d &&& b) ||| (notW d &&& c), (5 * i + 1) % 16)
      else if i < 48 then (b ^^^ c ^^^ d, (3 * i + 5) % 16)
      else (c ^^^ (b ||| notW d), (7 * i) % 16)
    let f := (fg.1 + a + md5K.getD i 0 + w.getD fg.2 0) % m32
    (d, (b + rotl32 f (md5Shifts.getD i 0)) % m32, b, c)

/-- Digest one 64-byte chunk into the running MD5 state. -/
def md5Chunk (st : Nat × Nat × Nat × Nat) (chunk : List Nat) :
    Nat × Nat × Nat × Nat :=
  let w := bytesToWordsLE chunk
  match st, (List.range 64).foldl (md5Mix w) st with
  | (a0, b0, c0, d0), (a, b, c, d) =>
    ((a0 + a) % m32, (b0 + b) % m32, (c0 + c) % m32, (d0 + d) % m32)

/-- The eight little-endian bytes of the 64-bit message bit length. -/
def leBytes8 (n : Nat) : List Nat :=
  [n % 256, n / 256 % 256, n / 65536 % 256, n / 16777216 % 256,
   n / 4294967296 % 256, n / 1099511627776 % 256,
   n / 281474976710656 % 256, n / 72057594037927936 % 256]

/-- MD5 padding: `0x80`, zeros to 56 mod 64, the bit length little-endian. -/
def md5Pad (msg : List Nat) : List Nat :=
  let z := (120 - (msg.length + 1) % 64) % 64
  msg ++ [128] ++ List.replicate z 0 ++ leBytes8 ((8 * msg.length) % 2 ^ 64)

/-- Fuel-indexed split into 64-byte chunks (fuel keeps it structural). -/
def chunks64Fuel : Nat → List Nat → List (List Nat)
  | 0, _ => []
  | _ + 1, [] => []
  | fuel + 1, bs => bs.take 64 :: chunks64Fuel fuel (bs.drop 64)

/-- Split a byte list into 64-byte chunks. -/
def chunks64 (bs : List Nat) : List (List Nat) :=
  chunks64Fuel (bs.length + 1) bs

/-- One lower-case hexadecimal digit. -/
def hexDigit (n : Nat) : Char :=
  if n < 10 then Char.ofNat (48 + n) else Char.ofNat (87 + n)

/-- Two hexadecimal digits of a byte. -/
def byteHex (b : Nat) : List Char :=
  [hexDigit (b / 16 % 16), hexDigit (b % 16)]

/-- Eight hexadecimal digits of a word, little-endian byte order. -/
def wordHexLE (w : Nat) : List Char :=
  byteHex (w % 256) ++ byteHex (w / 256 % 256) ++
  byteHex (w / 65536 % 256) ++ byteHex (w / 16777216 % 256)

/-- `hashlib.md5(s.encode()).hexdigest()`: the 32-character lower-case
hexadecimal MD5 digest of the UTF-8 bytes of `s`. -/
def md5Hex (s : String) : String :=
  let st := (chunks64 (md5Pad (strBytes s))).foldl md5Chunk
    (1732584193, 4023233417, 2562383102, 271733878)
  match st with
  | (a, b, c, d) => ⟨wordHexLE a ++ wordHexLE b ++ wordHexLE c ++ wordHexLE d⟩

-- ============================================================
-- The expert repository (`_initialize_experts_cache`)
-- ============================================================

/-- One cached expert: the value stored at `experts[expert_id]`. -/
structure Expert where
  content : String
  role : String
  filename : String
deriving Repr, DecidableEq

/-- The version-hash step of `_initialize_experts_cache` (source lines
57-62): the 8-character truncated MD5 of all contents concatenated in
mapping order, or the literal `"empty"` for an empty mapping. -/
def versionOf (experts : List (String × Expert)) : String :=
  if experts.isEmpty then "empty"
  else pyTake (md5Hex (String.join (experts.map (fun p => p.2.content)))) 8

/-- A directory entry as `Path.iterdir` yields it: its final name, whether
`is_file()` holds, and the text `read_text` would produce. -/
structure DirFile where
  name : String
  isFile : Bool
  content : String
deriving Repr, DecidableEq

/-- CPython `PurePath.suffix`: the part of the name from its last dot,
empty when the last dot is the first character or the last. -/
def pathSuffix (name : String) : String :=
  match (List.range name.data.length).reverse.find?
      (fun i => name.data.get? i = some '.') with
  | some i => if 0 < i ∧ i < name.data.length - 1 then ⟨name.data.drop i⟩ else ""
  | none => ""

/-- CPython `PurePath.stem`: the name with `suffix` removed. -/
def pathStem (name : String) : String :=
  match (List.range name.data.length).reverse.find?
      (fun i => name.data.get? i = some '.') with
  | some i => if 0 < i ∧ i < name.data.length - 1 then ⟨name.data.take i⟩ else name
  | none => name

/-- The extension allow-list of `_initialize_experts_cache`. -/
def textExtensions : List String :=
  [".txt", ".md", ".json", ".xml", ".yaml", ".yml", ".py", ".js", ".html"]

/-- The filter of the loading loop: a regular file whose lower-cased suffix
is allow-listed or that has no suffix. -/
def qualifiesFile (f : DirFile) : Bool :=
  f.isFile && (textExtensions.contains (pyLower (pathSuffix f.name))
    || pathSuffix f.name == "")

/-- Python dict assignment `experts[expert_id] = v`: replace in place when
the key exists (keeping its insertion position), else append. -/
def dictInsert (m : List (String × Expert)) (k : String) (v : Expert) :
    List (String × Expert) :=
  if m.any (fun p => p.1 = k) then
    m.map (fun p => if p.1 = k then (k, v) else p)
  else m ++ [(k, v)]

/-- `_initialize_experts_cache()`.  The directory is a parameter: `none`
when `experts/` does not exist (the source then creates it and returns the
empty mapping with version `"empty"`), `some files` for its entries.
Per-file read errors (the `except` branch, which only skips the file) are
not modelled: reads are total here. -/
def initializeExpertsCache (dir : Option (List DirFile)) :
    List (String × Expert) × String :=
  match dir with
  | none => ([], "empty")
  | some files =>
    let experts := files.foldl
      (fun acc f =>
        if qualifiesFile f then
          dictInsert acc (pathStem f.name)
            ⟨f.content, extractRole f.content, f.name⟩
        else acc) []
    (experts, versionOf experts)

-- ============================================================
-- Tool bodies (`consult_expert`, `consult_multiple_experts`,
-- `list_experts`)
-- ============================================================

/-- `consult_expert(expert_id)` (source lines 427-441), the wrapped body:
exact dictionary lookup; on a miss the error text listing all available
identifiers, on a hit a header followed by the full content. -/
def consultExpert (experts : List (String × Expert)) (expert_id : String) :
    String :=
  match experts.lookup expert_id with
  | none =>
    "Error: Expert '" ++ expert_id ++ "' not found.\nAvailable experts: " ++
      joinWith ", " (experts.map (fun p => p.1))
  | some expert =>
    "=== EXPERT: " ++ expert_id ++ " ===\nSource: " ++ expert.filename ++
      "\n\n" ++ expert.content

/-- `consult_multiple_experts(expert_ids)` (source lines 453-470). -/
def consultMultipleExperts (experts : List (String × Expert))
    (expert_ids : List String) : String :=
  String.join (expert_ids.map fun expert_id =>
    match experts.lookup expert_id with
    | some expert =>
      "=== EXPERT: " ++ expert_id ++ " ===\nSource: " ++ expert.filename ++
        "\n\n" ++ expert.content ++ "\n\n"
    | none => "=== ERROR ===\nExpert '" ++ expert_id ++ "' not found\n\n")

/-- `list_experts()` (source lines 482-494). -/
def listExperts (experts : List (String × Expert)) : String :=
  if experts.isEmpty then "No experts found in ./experts/ directory"
  else experts.foldl
    (fun acc p =>
      acc ++ "**" ++ p.1 ++ "** (" ++ p.2.filename ++ ")\n" ++
        "  " ++ p.2.role ++ "\n\n")
    "Available experts:\n\n"

-- ============================================================
-- Instruction generation and version checking
-- ============================================================

/-- The message of the `FileNotFoundError` raised by
`_load_project_template` when the template file is missing. -/
def templateMissingMessage : String :=
  "Project template file not found: project_instruction_template.md\n" ++
  "Please create project_instruction_template.md with placeholders: " ++
  "{expert_list}, {version}, {timestamp}"

/-- The `- **id**: role` block built by both instruction generators. -/
def expertListLines (experts : List (String × Expert)) : String :=
  experts.foldl
    (fun acc p => acc ++ "- **" ++ p.1 ++ "**: " ++ p.2.role ++ "\n") ""

/-- `template.format(version=..., timestamp=..., expert_list=...)`,
modelled as substitution of the three documented placeholders (faithful to
`str.format` for templates whose braces are exactly these placeholders). -/
def fillTemplate (tpl version timestamp expertList : String) : String :=
  strReplace (strReplace (strReplace tpl "{version}" version)
    "{timestamp}" timestamp) "{expert_list}" expertList

/-- Python's `a or b` on two optional strings: the first operand unless it
is `None` or the empty string (both falsy), else the second. -/
def pyOrOpt (a b : Option String) : Option String :=
  match a with
  | some s => if s = "" then b else some s
  | none => b

/-- `_generate_project_instruction_update(provided_version, current_version)`
(source lines 141-197).  The cached experts, the timestamp and the template
file (`none` = missing, turning the `FileNotFoundError` into the
configuration-error text) are parameters. -/
def generateProjectInstructionUpdate (experts : List (String × Expert))
    (current_version timestamp : String) (template : Option String)
    (provided_version : Option String) : String :=
  match template with
  | none => "❌ Configuration Error: " ++ templateMissingMessage
  | some tpl =>
    let update_notice :=
      match provided_version with
      | none =>
        "\n🚀 **VERSION CHECK: INITIAL SETUP REQUIRED**\n\nYour Claude project is missing version information. Please copy the instructions below \nto your Claude project settings to enable version-aware expert consultations.\n\n---\n"
      | some pv =>
        "\n🔄 **VERSION CHECK: UPDATE REQUIRED**\n\nYour project instruction version (" ++ pv ++ ") is outdated.\nCurrent server version: " ++ current_version ++ "\n\nPlease replace your Claude project instruction with the content below to ensure \ncompatibility with the latest expert knowledge.\n\n---\n"
    update_notice ++
      fillTemplate tpl current_version timestamp (expertListLines experts)

/-- `check_version_compatibility(provided_version)` (source lines 98-114):
`none` when the provided version matches the current one, otherwise the
project-instruction update text. -/
def checkVersionCompatibility (experts : List (String × Expert))
    (current_version timestamp : String) (template : Option String)
    (provided_version : Option String) : Option String :=
  match provided_version with
  | none =>
    some (generateProjectInstructionUpdate experts current_version timestamp
      template none)
  | some v =>
    if v ≠ current_version then
      some (generateProjectInstructionUpdate experts current_version timestamp
        template (some v))
    else none

/-- Keyword arguments of a tool call: names mapped to optional string
values (`none` models Python `None`, also the result of a missing key). -/
abbrev Kwargs := List (String × Option String)

/-- The `version_check` decorator's wrapper (source lines 116-139) around a
tool body `f`: read `kwargs.get('version')`; on `None` or mismatch return
the (truthy) update text instead of calling `f`; otherwise call `f` with
the `version` key removed.  The `if version_update:` truthiness test is
kept literally: an empty update string would fall through to `f`. -/
def versionCheckWrap (f : Kwargs → String) (experts : List (String × Expert))
    (current_version timestamp : String) (template : Option String)
    (kwargs : Kwargs) : String :=
  let version := (kwargs.lookup "version").join
  match checkVersionCompatibility experts current_version timestamp template
      version with
  | some u =>
    if u = "" then f (kwargs.filter (fun p => p.1 ≠ "version")) else u
  | none => f (kwargs.filter (fun p => p.1 ≠ "version"))

/-- `get_project_instruction(current_version, version)` (source lines
358-412).  The cached experts, the current version hash, the timestamp and
the template file are parameters; `current_version or version` is Python's
truthiness choice `pyOrOpt`. -/
def getProjectInstruction (experts : List (String × Expert))
    (current_ver timestamp : String) (template : Option String)
    (current_version version : Option String) : String :=
  let check_version := pyOrOpt current_version version
  match template with
  | none => "❌ Configuration Error: " ++ templateMissingMessage
  | some tpl =>
    let update_notice :=
      match check_version with
      | none =>
        "🚀 **INITIAL SETUP**\nCopy the instructions below to your Claude project settings to enable expert-guided workflows.\n\n---\n"
      | some cv =>
        if cv ≠ current_ver then
          "🔄 **UPDATE REQUIRED**\nYour project instruction version (" ++ cv ++ ") is outdated.\nCurrent version: " ++ current_ver ++ "\nPlease replace your Claude project instruction with the content below.\n\n---\n"
        else "✅ Your project instruction is up to date.\n\n---\n"
    update_notice ++
      fillTemplate tpl current_ver timestamp (expertListLines experts)

-- ============================================================
-- Helper lemmas
-- ============================================================

/-- The character list of an appended string. -/
theorem strAppendData (a b : String) : (a ++ b).data = a.data ++ b.data := rfl

/-- The length of a string is the length of its character list. -/
theorem strLengthData (s : String) : s.length = s.data.length := rfl

/-- Appending the empty string on the right changes nothing. -/
theorem strAppendEmpty (s : String) : s ++ "" = s := by
  cases s with
  | mk l =>
    show String.mk (l ++ []) = String.mk l
    rw [List.append_nil]

/-- An append whose left part has characters has characters. -/
theorem strAppendDataNeNil (a b : String) (h : a.data ≠ []) :
    (a ++ b).data ≠ [] := by
  rw [strAppendData]
  intro hh
  exact h (List.append_eq_nil.mp hh).1

/-- An append whose left part has characters is not the empty string. -/
theorem strAppendNeEmptyLeft (a b : String) (h : a.data ≠ []) :
    a ++ b ≠ "" := by
  intro hab
  have hd : (a ++ b).data = [] := by rw [hab]
  exact strAppendDataNeNil a b h hd

/-- The characters of `pyTake`. -/
theorem pyTake_data (s : String) (n : Nat) : (pyTake s n).data = s.data.take n :=
  rfl

/-- The project-instruction update text is never the empty string (so the
decorator's `if version_update:` truthiness test always fires on it). -/
theorem generateUpdate_ne_empty (experts : List (String × Expert))
    (cv ts : String) (tpl : Option String) (pv : Option String) :
    generateProjectInstructionUpdate experts cv ts tpl pv ≠ "" := by
  cases tpl with
  | none =>
    simp only [generateProjectInstructionUpdate]
    apply strAppendNeEmptyLeft
    decide
  | some t =>
    cases pv with
    | none =>
      simp only [generateProjectInstructionUpdate]
      apply strAppendNeEmptyLeft
      decide
    | some p =>
      simp only [generateProjectInstructionUpdate]
      apply strAppendNeEmptyLeft
      apply strAppendDataNeNil
      apply strAppendDataNeNil
      apply strAppendDataNeNil
      apply strAppendDataNeNil
      decide

/-- The truncation step never produces more than 250 characters. -/
theorem truncRole_length (r : String) : (truncRole r).length ≤ 250 := by
  unfold truncRole
  split
  next h =>
    rw [strLengthData, strAppendData, List.length_append, pyTake_data,
      List.length_take]
    have h3 : ("..." : String).data.length = 3 := rfl
    omega
  next h => omega

/-- On input longer than 250 characters the truncation step produces
exactly 250 characters ending in the ellipsis marker. -/
theorem truncRole_long (r : String) (h : 250 < r.length) :
    ∃ s, truncRole r = s ++ "..." ∧ (truncRole r).length = 250 := by
  refine ⟨pyTake r 247, ?_, ?_⟩
  · unfold truncRole
    rw [if_pos (by omega)]
  · unfold truncRole
    rw [if_pos (by omega), strLengthData, strAppendData, List.length_append,
      pyTake_data, List.length_take]
    have h3 : ("..." : String).data.length = 3 := rfl
    rw [strLengthData] at h
    omega

/-- The loading loop adds nothing when no file qualifies. -/
theorem loadLoop_nil (step : List (String × Expert) → DirFile → List (String × Expert))
    (hstep : ∀ acc f, qualifiesFile f = false → step acc f = acc)
    (files : List DirFile) (h : ∀ f ∈ files, qualifiesFile f = false) :
    files.foldl step [] = [] := by
  induction files with
  | nil => rfl
  | cons f fs ih =>
    simp only [List.foldl]
    rw [hstep [] f (h f (List.mem_cons_self f fs))]
    exact ih (fun g hg => h g (List.mem_cons_of_mem _ hg))

-- ============================================================
-- Claim theorems
-- ============================================================

/-- A concrete repository with identifier set
`{python_specialist, data_analysis}` for C1. -/
def c1Experts : List (String × Expert) :=
  [("python_specialist", ⟨"PYSPEC BODY", "py role", "python_specialist.md"⟩),
   ("data_analysis", ⟨"DA BODY", "da role", "data_analysis.md"⟩)]

/-- C1, counterexample.  The claim says the request `"python"` against
`{python_specialist, data_analysis}` is fuzzy-scored above 80 and
auto-routed to `python_specialist`.  The code performs an exact lookup
only: it returns the not-found error text, which in particular does not
contain the routed candidate's content, and nothing is marked as
auto-routed. -/
theorem c1_consult_python_not_autorouted :
    consultExpert c1Experts "python"
      = "Error: Expert 'python' not found.\nAvailable experts: python_specialist, data_analysis"
    ∧ strContains (consultExpert c1Experts "python") "PYSPEC BODY" = false :=
  ⟨rfl, by decide⟩

/-- C1, amended.  For the identifier set
`{python_specialist, data_analysis}` and requested identifier `"python"`,
`consult_expert` performs no similarity scoring and no auto-routing: for
every stored contents it returns the generic not-found error text listing
the two available identifiers. -/
theorem c1_consult_python_exact_lookup_only (e1 e2 : Expert) :
    consultExpert [("python_specialist", e1), ("data_analysis", e2)] "python"
      = "Error: Expert 'python' not found.\nAvailable experts: python_specialist, data_analysis" :=
  rfl

/-- A concrete repository with identifier set `{java_expert}` for C2. -/
def c2Experts : List (String × Expert) :=
  [("java_expert", ⟨"JAVA BODY", "j role", "java_expert.md"⟩)]

/-- C2, counterexample.  The claim says the request `"javascript"` against
`{java_expert}` is fuzzy-scored into a suggest band and answered with a
"not found, did you mean java_expert" outcome.  The code computes no score
and has no suggest band: it returns the same generic not-found shape it
returns for any unknown identifier (listing all available experts), with
no "did you mean" wording and without the candidate's content. -/
theorem c2_consult_javascript_generic_error :
    consultExpert c2Experts "javascript"
      = "Error: Expert 'javascript' not found.\nAvailable experts: java_expert"
    ∧ strContains (consultExpert c2Experts "javascript") "did you mean" = false
    ∧ strContains (consultExpert c2Experts "javascript") "JAVA BODY" = false :=
  ⟨rfl, by decide, by decide⟩

/-- C2, amended.  For the identifier set `{java_expert}` and requested
identifier `"javascript"`, `consult_expert` computes no similarity score;
it returns the generic not-found error text naming the available expert in
its listing (not the candidate's content, and not an auto-routed result). -/
theorem c2_consult_javascript_exact_lookup_only (e : Expert) :
    consultExpert [("java_expert", e)] "javascript"
      = "Error: Expert 'javascript' not found.\nAvailable experts: java_expert" :=
  rfl

/-- C3, counterexample.  The claim says that with an empty identifier set
every request gets a distinct "nothing available" outcome and never the
generic not-found.  `consult_expert` returns exactly the generic not-found
error text (with an empty available list); the distinct "No experts found"
message exists only in `list_experts`. -/
theorem c3_empty_repository_generic_not_found :
    consultExpert [] "python"
      = "Error: Expert 'python' not found.\nAvailable experts: "
    ∧ consultExpert [] "python" ≠ listExperts [] :=
  ⟨rfl, by decide⟩

/-- C3, amended.  With an empty repository, `consult_expert` answers every
requested identifier with the generic not-found error text listing no
available experts, while the distinct "nothing available" outcome is the
one produced by `list_experts`. -/
theorem c3_empty_repository_outcomes (expert_id : String) :
    consultExpert [] expert_id
      = "Error: Expert '" ++ expert_id ++ "' not found.\nAvailable experts: "
    ∧ listExperts [] = "No experts found in ./experts/ directory" := by
  constructor
  · show ("Error: Expert '" ++ expert_id ++ "' not found.\nAvailable experts: ")
      ++ joinWith ", " [] = _
    rw [show joinWith ", " ([] : List String) = "" from rfl, strAppendEmpty]
  · rfl

/-- C4.  The consult operation is a total function into text: for an
identifier present in the repository the result contains (ends with) that
expert's full file content, and for an absent identifier it is the error
text; no case is left unhandled. -/
theorem c4_consult_expert_total_contract (experts : List (String × Expert))
    (expert_id : String) :
    (∀ e, experts.lookup expert_id = some e →
      ∃ p, consultExpert experts expert_id = p ++ e.content) ∧
    (experts.lookup expert_id = none →
      ∃ s, consultExpert experts expert_id
        = "Error: Expert '" ++ expert_id ++ "' not found.\nAvailable experts: " ++ s) := by
  constructor
  · intro e he
    unfold consultExpert
    rw [he]
    exact ⟨"=== EXPERT: " ++ expert_id ++ " ===\nSource: " ++ e.filename ++ "\n\n", rfl⟩
  · intro he
    unfold consultExpert
    rw [he]
    exact ⟨joinWith ", " (experts.map (fun p => p.1)), rfl⟩

/-- A one-expert repository for the C4 witness. -/
def c4Experts : List (String × Expert) :=
  [("python_specialist", ⟨"PYCONTENT", "r1", "python_specialist.md"⟩)]

/-- C4, witness: both branches of the contract at concrete inputs. -/
theorem c4_consult_expert_total_contract_witness :
    (∃ p, consultExpert c4Experts "python_specialist" = p ++ "PYCONTENT")
    ∧ (∃ s, consultExpert c4Experts "nope"
        = "Error: Expert '" ++ "nope" ++ "' not found.\nAvailable experts: " ++ s) :=
  ⟨(c4_consult_expert_total_contract c4Experts "python_specialist").1
      ⟨"PYCONTENT", "r1", "python_specialist.md"⟩ rfl,
   (c4_consult_expert_total_contract c4Experts "nope").2 rfl⟩

/-- C5, counterexample.  The claim says `_extract_role` always returns a
non-empty string.  On `"<role> </role>"` the first pattern matches with a
whitespace-only capture, `strip()` empties it, and the function returns
the empty string. -/
theorem c5_extract_role_empty_result :
    extractRole "<role> </role>" = "" :=
  rfl

/-- C5, amended.  `_extract_role` is total and always returns a string of
at most 250 characters; whenever the cleaned-up candidate of the matching
pattern exceeds 250 characters the result is truncated to exactly 250
characters ending in the ellipsis marker.  (The result can be empty when a
marker's inner text strips to nothing, so "non-empty" does not hold.) -/
theorem c5_extract_role_length_bound (content : String) :
    (extractRole content).length ≤ 250 ∧
    (∀ g, cascadeMatch content = some g → 250 < (collapseRole g).length →
      ∃ s, extractRole content = s ++ "..."
        ∧ (extractRole content).length = 250) := by
  unfold extractRole
  cases hm : cascadeMatch content with
  | none =>
    refine ⟨by decide, ?_⟩
    intro g hg
    exact absurd hg (by simp)
  | some g =>
    refine ⟨truncRole_length _, ?_⟩
    intro g' hg' hlong
    injection hg' with hgg
    subst hgg
    exact truncRole_long _ hlong

/-- A content whose role tag holds 260 characters, for the C5 witness. -/
def c5content : String :=
  "<role>" ++ String.mk (List.replicate 260 'a') ++ "</role>"

set_option maxRecDepth 100000 in
/-- C5, witness: on a 260-character role the bound is met with equality. -/
theorem c5_extract_role_length_bound_witness :
    (extractRole c5content).length ≤ 250
    ∧ (extractRole c5content).length = 250 := by
  obtain ⟨s, hs, hlen⟩ := (c5_extract_role_length_bound c5content).2
    (String.mk (List.replicate 260 'a')) rfl (by decide)
  exact ⟨(c5_extract_role_length_bound c5content).1, hlen⟩

/-- C6.  Whenever the role-tag pattern (the first of the cascade) matches,
`_extract_role` returns exactly its capture after the source's clean-up
(strip, first-non-blank-line collapse with the under-50 merge rule, and
the over-250 truncation), regardless of any other markers present in the
content: the first pattern wins. -/
theorem c6_role_tag_first_wins (content g : String)
    (h : searchPat roleTagPat content = some g) :
    extractRole content = truncRole (collapseRole g) := by
  have hc : cascadeMatch content = some g := by
    unfold cascadeMatch rolePatterns
    simp only [List.findSome?]
    rw [h]
  unfold extractRole
  rw [hc]

/-- A content holding both a role tag and a JSON description marker, for
the C6 witness. -/
def c6content : String :=
  "<role>Python guru</role>\n\"description\": \"unused\""

/-- C6, witness: the role tag wins over the later description marker. -/
theorem c6_role_tag_first_wins_witness :
    extractRole c6content = "Python guru" := by
  rw [c6_role_tag_first_wins c6content "Python guru" rfl]
  rfl

set_option maxRecDepth 100000 in
/-- C7, counterexample.  The claim says any prior version other than the
current fingerprint yields the "update required" banner.  An empty-string
prior version is falsy in Python's `current_version or version`, so with
`current_version=""` (and no `version`) the function produces the
"initial setup" banner although `"" ≠ "abcd1234"`. -/
theorem c7_empty_prior_version_initial_banner :
    getProjectInstruction [] "abcd1234" "TS" (some "V={version}") (some "") none
      = "🚀 **INITIAL SETUP**\nCopy the instructions below to your Claude project settings to enable expert-guided workflows.\n\n---\nV=abcd1234"
    ∧ strContains
        (getProjectInstruction [] "abcd1234" "TS" (some "V={version}") (some "") none)
        "UPDATE REQUIRED" = false :=
  ⟨rfl, by decide⟩

/-- C7, amended.  With the template present: no prior version yields the
"initial setup" banner; a prior version equal to the current (non-empty)
fingerprint yields the "up to date" banner; any other non-empty prior
version yields the "update required" banner naming both the supplied and
the current version.  (An empty-string prior is falsy in Python's `or` and
behaves as absent.) -/
theorem c7_banner_selection (experts : List (String × Expert))
    (cv ts tpl v : String) :
    (getProjectInstruction experts cv ts (some tpl) none none
      = "🚀 **INITIAL SETUP**\nCopy the instructions below to your Claude project settings to enable expert-guided workflows.\n\n---\n"
        ++ fillTemplate tpl cv ts (expertListLines experts)) ∧
    (cv ≠ "" → getProjectInstruction experts cv ts (some tpl) (some cv) none
      = "✅ Your project instruction is up to date.\n\n---\n"
        ++ fillTemplate tpl cv ts (expertListLines experts)) ∧
    (v ≠ "" → v ≠ cv → getProjectInstruction experts cv ts (some tpl) (some v) none
      = "🔄 **UPDATE REQUIRED**\nYour project instruction version (" ++ v
        ++ ") is outdated.\nCurrent version: " ++ cv
        ++ "\nPlease replace your Claude project instruction with the content below.\n\n---\n"
        ++ fillTemplate tpl cv ts (expertListLines experts)) := by
  refine ⟨rfl, ?_, ?_⟩
  · intro h
    simp [getProjectInstruction, pyOrOpt, h]
  · intro h1 h2
    simp [getProjectInstruction, pyOrOpt, h1, h2]

/-- C7, witness: the three banners at concrete versions. -/
theorem c7_banner_selection_witness :
    (getProjectInstruction [] "abcd1234" "TS" (some "tpl") none none
      = "🚀 **INITIAL SETUP**\nCopy the instructions below to your Claude project settings to enable expert-guided workflows.\n\n---\ntpl")
    ∧ (getProjectInstruction [] "abcd1234" "TS" (some "tpl") (some "abcd1234") none
      = "✅ Your project instruction is up to date.\n\n---\ntpl")
    ∧ (getProjectInstruction [] "abcd1234" "TS" (some "tpl") (some "old7") none
      = "🔄 **UPDATE REQUIRED**\nYour project instruction version (old7) is outdated.\nCurrent version: abcd1234\nPlease replace your Claude project instruction with the content below.\n\n---\ntpl") := by
  obtain ⟨h1, h2, h3⟩ := c7_banner_selection [] "abcd1234" "TS" "tpl" "old7"
  refine ⟨by rw [h1]; rfl, by rw [h2 (by decide)]; rfl, by rw [h3 (by decide) (by decide)]; rfl⟩

/-- Two repositories for C8 whose expert `x` stores different content but
whose concatenated contents agree. -/
def fpA : List (String × Expert) :=
  [("x", ⟨"ab", "rx", "x.txt"⟩), ("y", ⟨"c", "ry", "y.txt"⟩)]

/-- The second C8 repository; compare `fpA`. -/
def fpB : List (String × Expert) :=
  [("x", ⟨"a", "rx", "x.txt"⟩), ("y", ⟨"bc", "ry", "y.txt"⟩)]

/-- C8, counterexample.  The claim says that whenever some expert's content
differs by a byte the fingerprints differ.  The hash is taken over the
bare concatenation of all contents, so moving a byte from one expert to
the next changes expert `x`'s content but not the fingerprint. -/
theorem c8_fingerprint_collision_on_equal_concat :
    (fpA.lookup "x").map Expert.content = some "ab"
    ∧ (fpB.lookup "x").map Expert.content = some "a"
    ∧ versionOf fpA = versionOf fpB :=
  ⟨rfl, rfl, rfl⟩

/-- C8, amended.  The fingerprint is a deterministic function of the
emptiness flag and the concatenation of all contents in mapping order:
recomputing it on the same mapping yields the same token, and it changes
only when that concatenation (or emptiness) changes — an individual
content byte may change without changing the fingerprint. -/
theorem c8_fingerprint_concat_determined (A B : List (String × Expert))
    (hE : A.isEmpty = B.isEmpty)
    (hc : String.join (A.map (fun p => p.2.content))
      = String.join (B.map (fun p => p.2.content))) :
    versionOf A = versionOf B := by
  unfold versionOf
  rw [hE, hc]

/-- C8, witness: two distinct mappings with equal concatenation share the
fingerprint (and the same-mapping instance gives determinism). -/
theorem c8_fingerprint_concat_determined_witness :
    versionOf [("p", ⟨"ab", "r", "p.txt"⟩)]
      = versionOf [("q", ⟨"a", "r", "q.txt"⟩), ("r", ⟨"b", "r", "r.txt"⟩)] :=
  c8_fingerprint_concat_determined _ _ rfl rfl

/-- C9.  The `version_check` wrapper runs the wrapped body exactly when the
`version` keyword equals the current fingerprint, passing the keyword
arguments with the `version` key removed; when the keyword is absent,
`None`, or different, it returns the project-instruction update text
instead and the body is never consulted. -/
theorem c9_version_check_gate (f : Kwargs → String)
    (experts : List (String × Expert)) (cv ts : String) (tpl : Option String)
    (kwargs : Kwargs) (v : Option String)
    (hv : (kwargs.lookup "version").join = v) :
    (v = some cv → versionCheckWrap f experts cv ts tpl kwargs
      = f (kwargs.filter (fun p => p.1 ≠ "version"))) ∧
    ((v = none ∨ ∃ s, v = some s ∧ s ≠ cv) →
      versionCheckWrap f experts cv ts tpl kwargs
        = generateProjectInstructionUpdate experts cv ts tpl v) := by
  constructor
  · intro hev
    subst hev
    simp only [versionCheckWrap, hv, checkVersionCompatibility]
    rw [if_neg (fun hh => hh rfl)]
  · intro hne
    rcases hne with hnone | ⟨s, hs, hsne⟩
    · subst hnone
      have hne' := generateUpdate_ne_empty experts cv ts tpl none
      simp only [versionCheckWrap, hv, checkVersionCompatibility]
      simp [hne']
    · subst hs
      have hne' := generateUpdate_ne_empty experts cv ts tpl (some s)
      simp only [versionCheckWrap, hv, checkVersionCompatibility]
      rw [if_pos hsne]
      simp [hne']

/-- C9, witness: with the matching version the body runs on the filtered
keyword arguments. -/
theorem c9_version_check_gate_witness :
    versionCheckWrap (fun kw => joinWith "," (kw.map (fun p => p.1))) []
        "v1" "T" (some "tpl") [("expert_id", some "x"), ("version", some "v1")]
      = "expert_id" := by
  rw [(c9_version_check_gate (fun kw => joinWith "," (kw.map (fun p => p.1)))
    [] "v1" "T" (some "tpl") [("expert_id", some "x"), ("version", some "v1")]
    (some "v1") rfl).1 rfl]
  rfl

/-- C10.  A missing directory, or one in which no entry passes the
file-and-extension filter, loads as the empty mapping with the version
fingerprint equal to the literal `"empty"`. -/
theorem c10_empty_repository_version_literal (files : List DirFile)
    (h : ∀ f ∈ files, qualifiesFile f = false) :
    initializeExpertsCache none = ([], "empty")
    ∧ initializeExpertsCache (some files) = ([], "empty") := by
  refine ⟨rfl, ?_⟩
  have hstep : ∀ (acc : List (String × Expert)) (f : DirFile),
      qualifiesFile f = false →
      (if qualifiesFile f then
        dictInsert acc (pathStem f.name) ⟨f.content, extractRole f.content, f.name⟩
      else acc) = acc := by
    intro acc f hf
    rw [hf]
    simp
  have hz := loadLoop_nil _ (fun acc f hf => hstep acc f hf) files h
  simp only [initializeExpertsCache]
  rw [hz]
  rfl

/-- A directory with only non-qualifying entries for the C10 witness. -/
def c10files : List DirFile :=
  [⟨"subdir", false, ""⟩, ⟨"binary.exe", true, "BB"⟩,
   ⟨"archive.tar.gz", true, "AA"⟩]

/-- C10, witness: a directory of a subdirectory and two disallowed
extensions loads empty with version `"empty"`. -/
theorem c10_empty_repository_version_literal_witness :
    initializeExpertsCache (some c10files) = ([], "empty") :=
  (c10_empty_repository_version_literal c10files (by decide)).2

/-- Validation of the MD5 embedding against the well-known digest of
`"abc"`. -/
theorem md5Hex_abc : md5Hex "abc" = "900150983cd24fb0d6963f7d28e17f72" := by
  decide

/-- Validation of the MD5 embedding on the empty message. -/
theorem md5Hex_empty : md5Hex "" = "d41d8cd98f00b204e9800998ecf8427e" := by
  decide
